import Mathlib

/-
Verification of the weekly-aggregation subsystem of the journal-app backend.

The embedding models:
  * `app/models/post.py` and `app/models/weekly_advice.py` rows as structures
    (only the columns the aggregation logic touches);
  * `app/tasks_logic.py` (`generate_advice`, `generate_weekly_advice_for_user`)
    with the database session passed as an explicit record list and the
    OpenAI call as an injected fallible function;
  * `app/celery_tasks.py` (`generate_all_users_weekly_advice`) with the
    per-user job injected as a fallible function, mirroring the fact that the
    Python loop body may raise;
  * `app/main/routes.py` (`return_previous_sunday`) on proleptic-Gregorian
    day ordinals, with Python's convention that ordinal 1 is a Monday, so
    `weekday(o) = (o - 1) % 7` (Monday = 0 .. Sunday = 6).
Instants are integers (seconds, UTC); day ordinals are integers (days).
-/

set_option autoImplicit false

namespace JournalApp

/-- A row of the `posts` table (`app/models/post.py`): only the columns read
by the aggregation logic. `created_at` is an instant in seconds (UTC). -/
structure Post where
  user_id : Nat
  content : String
  created_at : Int
deriving Repr, DecidableEq

/-- A row of the `weekly_advices` table (`app/models/weekly_advice.py`).
`created_at` and `of_week` both default to the database clock at insert time
(`db.func.now()`); the embedding records the invocation instant in both. -/
structure WeeklyAdvice where
  user_id : Nat
  content : String
  created_at : Int
  of_week : Int
deriving Repr, DecidableEq

/-- The prompt built by `generate_advice` in `app/tasks_logic.py`: a header,
one bullet per post content, then the fixed instruction paragraph. -/
def buildPrompt (posts : List Post) : String :=
  let header := "The user had the following posts last week:\n\n"
  let body := posts.foldl (fun acc p => acc ++ "- " ++ p.content ++ "\n") header
  body ++ "\nGiven these entries, please provide a short, encouraging piece of weekly advice focused on mental health and well-being. The advice should be empathetic, supportive, and actionable, guiding the user on how to approach the coming week."

/-- Python `str.strip()`: drop whitespace from both ends. Structurally
recursive over the character list so concrete instances reduce. -/
def pyStrip (s : String) : String :=
  String.mk (((s.data.dropWhile Char.isWhitespace).reverse.dropWhile Char.isWhitespace).reverse)

/-- `generate_advice` from `app/tasks_logic.py`. The OpenAI chat call together
with the extraction `response[choices][0][message][content]` is the injected
`apiCall`; the `try/except` around it maps any raised error to `None`, and on
success the extracted content is stripped. -/
def generate_advice (apiCall : String → Except String String)
    (posts : List Post) : Option String :=
  match apiCall (buildPrompt posts) with
  | Except.ok content => some (pyStrip content)
  | Except.error _ => none

/-- The post query issued by `generate_weekly_advice_for_user`:
`Post.query.filter(Post.user_id == user.id, Post.created_at >= retrieval_window)`
where `retrieval_window = datetime.now(timezone.utc) - timedelta(seconds=60)`. -/
def retrievePosts (posts : List Post) (uid : Nat) (now : Int) : List Post :=
  posts.filter (fun p => p.user_id == uid && decide (now - 60 ≤ p.created_at))

/-- `generate_weekly_advice_for_user` from `app/tasks_logic.py`.
`posts` is the `posts` table, `store` the `weekly_advices` table, `now` the
invocation instant. Returns the Python return value together with the table
after the invocation (the `db.session.add` / `commit` effect). -/
def generate_weekly_advice_for_user (apiCall : String → Except String String)
    (posts : List Post) (now : Int) (store : List WeeklyAdvice) (uid : Nat) :
    Option WeeklyAdvice × List WeeklyAdvice :=
  if (retrievePosts posts uid now).isEmpty then
    (none, store)
  else
    match generate_advice apiCall (retrievePosts posts uid now) with
    | some s =>
        if s.isEmpty then
          (none, store)
        else
          (some { user_id := uid, content := s, created_at := now, of_week := now },
           store ++ [{ user_id := uid, content := s, created_at := now, of_week := now }])
    | none => (none, store)

/-- `generate_all_users_weekly_advice` from `app/celery_tasks.py`: a plain
`for user in users:` loop over the per-user job with no `try/except`, so an
error raised by one job propagates out of the task; the loop ignores each
job's return value and threads the advice table through. The per-user job is
injected as `job` because the claims quantify over its failure behaviour. -/
def generate_all_users_weekly_advice
    (job : Nat → List WeeklyAdvice → Except String (Option WeeklyAdvice × List WeeklyAdvice)) :
    List Nat → List WeeklyAdvice → Except String (String × List WeeklyAdvice)
  | [], store =>
      Except.ok ("Completed Celery Task: Generated all users' weekly advice.", store)
  | u :: rest, store =>
      match job u store with
      | Except.ok (_, store2) => generate_all_users_weekly_advice job rest store2
      | Except.error e => Except.error e

/-- Python `date.weekday()` on a proleptic-Gregorian ordinal: ordinal 1 is a
Monday, so Monday = 0 .. Sunday = 6. -/
def pythonWeekday (o : Int) : Int :=
  (o - 1) % 7

/-- `return_previous_sunday` from `app/main/routes.py`:
`date - timedelta(days=date.weekday() + 1)`, returned as midnight UTC of that
day. The embedding works at day granularity: it maps the ordinal of the input
date to the ordinal of the returned Sunday. -/
def return_previous_sunday (o : Int) : Int :=
  o - (pythonWeekday o + 1)

/-- Midnight UTC of a day ordinal, as an instant in seconds: the value of the
`datetime.combine(previous_sunday_date, time.min, tzinfo=timezone.utc)`. -/
def midnightInstant (o : Int) : Int :=
  86400 * o

/-- The day ordinal containing an instant (Python `datetime.date()` of it). -/
def dateOfInstant (t : Int) : Int :=
  Int.fdiv t 86400

/-- Modelled from the spec (section 4.3 step 3): the week-window query the
spec prescribes, posts of the user with creation timestamp in
`[week_start, now)`. Used only to compare against the query the code issues
(`retrievePosts`). -/
def specQueryWindow (posts : List Post) (uid : Nat) (week_start now : Int) :
    List Post :=
  posts.filter (fun p =>
    p.user_id == uid && decide (week_start ≤ p.created_at) && decide (p.created_at < now))

/-- C1: the claimed invariant fails on the code. Two invocations of the
aggregation job for user 1 at the same instant 1000 (a duplicate trigger),
with one post in the retrieval window and a successful generation, leave two
Advice Records with (user, of week) = (1, 1000): the job has no
lookup-before-insert and the model has no uniqueness constraint. -/
theorem C1_counterexample :
    ¬ ((((generate_weekly_advice_for_user (fun _ => Except.ok "advice")
            [{ user_id := 1, content := "post", created_at := 990 }] 1000
            ((generate_weekly_advice_for_user (fun _ => Except.ok "advice")
                [{ user_id := 1, content := "post", created_at := 990 }] 1000 [] 1).2) 1).2).filter
          (fun wa => wa.user_id == 1 && wa.of_week == 1000)).length ≤ 1) := by decide

/-- C1 (amended): what the code does guarantee is per-invocation: a single
aggregation-job invocation either leaves the advice table unchanged or
appends exactly one record, belonging to the given user with the invocation
instant as its week-of stamp. Nothing prevents repeated invocations from
accumulating several records for the same (user, week-of). -/
theorem C1_amended_at_most_one_append (apiCall : String → Except String String)
    (posts : List Post) (now : Int) (store : List WeeklyAdvice) (uid : Nat) :
    (generate_weekly_advice_for_user apiCall posts now store uid).2 = store ∨
    ∃ wa : WeeklyAdvice, wa.user_id = uid ∧ wa.of_week = now ∧
      (generate_weekly_advice_for_user apiCall posts now store uid).2 = store ++ [wa] := by
  unfold generate_weekly_advice_for_user
  split
  · left; rfl
  · cases hg : generate_advice apiCall (retrievePosts posts uid now) with
    | none => left; rfl
    | some s =>
        by_cases hs : s.isEmpty
        · left; simp [hs]
        · right
          exact ⟨{ user_id := uid, content := s, created_at := now, of_week := now },
                 rfl, rfl, by simp [hs]⟩

/-- C2: the claimed idempotence fails on the code. Running the job twice for
user 1 at instant 1000 with no intervening posts and no other store writes
yields a table with two records, not exactly one: there is no
existing-record check to short-circuit on. -/
theorem C2_counterexample :
    (((generate_weekly_advice_for_user (fun _ => Except.ok "advice")
        [{ user_id := 1, content := "post", created_at := 990 }] 1000
        ((generate_weekly_advice_for_user (fun _ => Except.ok "advice")
            [{ user_id := 1, content := "post", created_at := 990 }] 1000 [] 1).2) 1).2).length = 2)
    := by decide

/-- C2 (amended): the second invocation does not short-circuit. Whenever a
first invocation created a record, running the job again with the same
inputs re-runs the whole pipeline and appends a duplicate of that record
instead of returning the existing one without writing. -/
theorem C2_amended_second_run_appends_again (apiCall : String → Except String String)
    (posts : List Post) (now : Int) (store : List WeeklyAdvice) (uid : Nat) (wa : WeeklyAdvice)
    (h : generate_weekly_advice_for_user apiCall posts now store uid = (some wa, store ++ [wa])) :
    generate_weekly_advice_for_user apiCall posts now (store ++ [wa]) uid
      = (some wa, (store ++ [wa]) ++ [wa]) := by
  by_cases hne : (retrievePosts posts uid now).isEmpty
  · simp [generate_weekly_advice_for_user, hne] at h
  · cases hg : generate_advice apiCall (retrievePosts posts uid now) with
    | none => simp [generate_weekly_advice_for_user, hne, hg] at h
    | some s =>
        by_cases hs : s.isEmpty
        · simp [generate_weekly_advice_for_user, hne, hg, hs] at h
        · simp [generate_weekly_advice_for_user, hne, hg, hs] at h ⊢
          exact h

/-- C2 witness: the amended duplication law instantiated at a concrete run. -/
theorem C2_witness :
    generate_weekly_advice_for_user (fun _ => Except.ok "advice")
      [{ user_id := 1, content := "post", created_at := 990 }] 1000
      ([] ++ [{ user_id := 1, content := "advice", created_at := 1000, of_week := 1000 }]) 1
    = (some { user_id := 1, content := "advice", created_at := 1000, of_week := 1000 },
       ([] ++ [{ user_id := 1, content := "advice", created_at := 1000, of_week := 1000 }])
         ++ [{ user_id := 1, content := "advice", created_at := 1000, of_week := 1000 }]) :=
  C2_amended_second_run_appends_again _ _ _ _ _ _ (by decide)

/-- C3: the claimed failure tolerance fails on the code. With two users where
user 1's job raises, the fleet task propagates the error: it never reaches
user 2 and never returns the completion message, contradicting that the run
continues and completes a full pass. -/
theorem C3_counterexample :
    generate_all_users_weekly_advice
      (fun u store => if u = 1 then Except.error "OperationalError"
                      else Except.ok (none, store ++ [{ user_id := u, content := "advice",
                                                        created_at := 0, of_week := 0 }]))
      [1, 2] [] = Except.error "OperationalError" := by rfl

/-- C3 (amended): the loop body has no exception handling, so a failing
per-user job aborts the whole fleet run at that user: the error propagates
unchanged and the remaining users are never processed. -/
theorem C3_amended_failure_aborts_run
    (job : Nat → List WeeklyAdvice → Except String (Option WeeklyAdvice × List WeeklyAdvice))
    (u : Nat) (rest : List Nat) (store : List WeeklyAdvice) (e : String)
    (h : job u store = Except.error e) :
    generate_all_users_weekly_advice job (u :: rest) store = Except.error e := by
  simp [generate_all_users_weekly_advice, h]

/-- C3 witness: the abort law instantiated at a concrete failing job. -/
theorem C3_witness :
    generate_all_users_weekly_advice
      (fun u store => if u = 1 then Except.error "DB error" else Except.ok (none, store))
      [1, 2] [] = Except.error "DB error" :=
  C3_amended_failure_aborts_run _ 1 [2] [] "DB error" (by rfl)

/-- C4: evaluation at the failing input. A post of user 1 created at instant
900000, which lies inside the spec's week window [week start, 1000000) for
the reference instant 1000000 (week start = 604800), is not retrieved by the
query the code issues, because the code filters on a fixed sixty-second
window, created at >= 1000000 - 60. -/
theorem C4_sixty_second_window_vs_spec_week_window :
    retrievePosts [{ user_id := 1, content := "entry", created_at := 900000 }] 1 1000000 = [] ∧
    specQueryWindow [{ user_id := 1, content := "entry", created_at := 900000 }] 1
      (midnightInstant (return_previous_sunday (dateOfInstant 1000000))) 1000000
      = [{ user_id := 1, content := "entry", created_at := 900000 }] := by decide

/-- C5: the claimed idempotence fails on the code. Ordinal 14 is a Sunday;
the calculator maps it to 7, and maps 7 to 0, so applying the calculator to
its own result does not return the same instant. -/
theorem C5_counterexample :
    ¬ (return_previous_sunday (return_previous_sunday 14) = return_previous_sunday 14) := by decide

/-- C5 (amended): the calculator always moves strictly backwards (so the
"at or before" half of the claim holds, strictly), but it is not idempotent:
its result is always a Sunday, and applying it again moves exactly one
further week back. -/
theorem C5_amended_bounded_not_idempotent (o : Int) :
    return_previous_sunday o < o ∧
    return_previous_sunday (return_previous_sunday o) = return_previous_sunday o - 7 := by
  unfold return_previous_sunday pythonWeekday
  omega

/-- C6: the claimed boundary fixed point fails on the code. Ordinal 14 falls
exactly on the weekly boundary (a Sunday, weekday 6), yet the calculator
returns 7, not 14. -/
theorem C6_counterexample :
    pythonWeekday 14 = 6 ∧ return_previous_sunday 14 ≠ 14 := by decide

/-- C6 (amended): when the input falls exactly on the weekly boundary (a
Sunday), the calculator returns the boundary one week earlier, input minus
seven days, rather than the input itself. -/
theorem C6_amended_boundary_maps_one_week_back (o : Int) (h : pythonWeekday o = 6) :
    return_previous_sunday o = o - 7 := by
  unfold return_previous_sunday
  omega

/-- C6 witness: the amended boundary law instantiated at the Sunday 14. -/
theorem C6_witness : pythonWeekday 14 = 6 ∧ return_previous_sunday 14 = 14 - 7 :=
  ⟨by decide, C6_amended_boundary_maps_one_week_back 14 (by decide)⟩

/-- C7: a user whose post query comes back empty gets the "no advice
produced" result (none), not an error, and the advice table is unchanged. -/
theorem C7_no_posts_no_record (apiCall : String → Except String String)
    (posts : List Post) (now : Int) (store : List WeeklyAdvice) (uid : Nat)
    (h : retrievePosts posts uid now = []) :
    generate_weekly_advice_for_user apiCall posts now store uid = (none, store) := by
  simp [generate_weekly_advice_for_user, h]

/-- C7 witness: the no-posts law at a concrete input where the only post in
the table belongs to another user. -/
theorem C7_witness :
    generate_weekly_advice_for_user (fun _ => Except.ok "advice")
      [{ user_id := 2, content := "post", created_at := 990 }] 1000 [] 1 = (none, []) :=
  C7_no_posts_no_record _ _ _ _ _ (by decide)

/-- C8: when the external generation call fails (raises), generate advice
catches it and returns none, and the per-user job then returns none without
writing any record; no error escapes the job. -/
theorem C8_generation_failure_recovered (apiCall : String → Except String String)
    (posts : List Post) (now : Int) (store : List WeeklyAdvice) (uid : Nat) (err : String)
    (h : apiCall (buildPrompt (retrievePosts posts uid now)) = Except.error err) :
    generate_advice apiCall (retrievePosts posts uid now) = none ∧
    generate_weekly_advice_for_user apiCall posts now store uid = (none, store) := by
  have hg : generate_advice apiCall (retrievePosts posts uid now) = none := by
    unfold generate_advice
    rw [h]
  refine ⟨hg, ?_⟩
  by_cases hne : (retrievePosts posts uid now).isEmpty
  · simp [generate_weekly_advice_for_user, hne]
  · simp [generate_weekly_advice_for_user, hne, hg]

/-- C8 witness: the recovery law at a concrete always-failing generation
call and a post inside the retrieval window. -/
theorem C8_witness :
    generate_advice (fun _ => Except.error "Request timed out")
      (retrievePosts [{ user_id := 1, content := "post", created_at := 990 }] 1 1000) = none ∧
    generate_weekly_advice_for_user (fun _ => Except.error "Request timed out")
      [{ user_id := 1, content := "post", created_at := 990 }] 1000 [] 1 = (none, []) :=
  C8_generation_failure_recovered _ _ _ _ _ _ (by rfl)

/-- C10: every invocation either performs no store write and returns none,
or appends exactly one record whose content is the non-empty generated
string; in particular a persisted record never has empty content, because
the truthiness test on the generator output rejects both none and the empty
string. -/
theorem C10_persisted_content_nonempty (apiCall : String → Except String String)
    (posts : List Post) (now : Int) (store : List WeeklyAdvice) (uid : Nat) :
    (generate_weekly_advice_for_user apiCall posts now store uid = (none, store)) ∨
    (∃ s : String, s.isEmpty = false ∧
      generate_advice apiCall (retrievePosts posts uid now) = some s ∧
      generate_weekly_advice_for_user apiCall posts now store uid =
        (some { user_id := uid, content := s, created_at := now, of_week := now },
         store ++ [{ user_id := uid, content := s, created_at := now, of_week := now }])) := by
  unfold generate_weekly_advice_for_user
  split
  · left; rfl
  · cases hg : generate_advice apiCall (retrievePosts posts uid now) with
    | none => left; rfl
    | some s =>
        by_cases hs : s.isEmpty
        · left; simp [hs]
        · right
          refine ⟨s, by simpa using hs, rfl, by simp [hs]⟩

end JournalApp
